import Mathlib

/-!
terraform-provider-tableau: user resource callbacks and group client

A shallow embedding of `pkg/resources/user.go` and `pkg/tableau/group.go`.

Conventions of the embedding

* A Go `error` is represented by its message (`err.Error()`), a `String`.
* A Go pointer that may be `nil` (`*string`) is an `Option`.
* A function returning `(T, error)` returns an `Except String T`.
* A nil-pointer dereference is an explicit `panicked` outcome.
* The remote server is an explicit state `σ` threaded through every call;
  every call that reaches the client is appended to a log.
* Go `int` is the 64-bit two's-complement integer of the amd64/arm64 targets:
  an `Int` reduced with `wrapInt` after each arithmetic step.
-/

/-! ## Go standard library pieces used by the sources -/

namespace strings

/-- Whether `sub` is an initial segment of `s` (character lists). -/
def startsWith : List Char → List Char → Bool
  | [], _ => true
  | _ :: _, [] => false
  | a :: as, b :: bs => a == b && startsWith as bs

/-- Whether `sub` occurs somewhere inside `s` (character lists). -/
def occursIn (sub : List Char) : List Char → Bool
  | [] => startsWith sub []
  | c :: cs => startsWith sub (c :: cs) || occursIn sub cs

/-- Go `strings.Contains(s, substr)`: reports whether `substr` is within `s`. -/
def Contains (s substr : String) : Bool :=
  occursIn substr.data s.data

end strings

namespace diag

/-- Severity of a diagnostic (`diag.Error`, `diag.Warning`). -/
inductive Severity where
  | Error
  | Warning
deriving DecidableEq, Repr

/-- One `diag.Diagnostic`: only the fields `diag.FromErr` fills. -/
structure Diagnostic where
  Severity : Severity
  Summary : String
deriving DecidableEq, Repr

/-- Go `diag.Diagnostics`, a slice of diagnostics; `nil` is the empty list. -/
abbrev Diagnostics := List Diagnostic

/-- Go `diag.FromErr(err)` for a non-nil `err`: one error diagnostic whose summary is
the error's message. -/
def FromErr (err : String) : Diagnostics :=
  [{ Severity := Severity.Error, Summary := err }]

end diag

namespace validation

/-- Go `validation.StringInSlice(valid, ignoreCase)` of the plugin SDK: the returned
validator takes the value `v` and the attribute key `k` and yields `(warnings, errors)`.
It accepts exactly when `v` equals an entry of `valid` (with `ignoreCase` the comparison
is made on lower-cased strings; both call sites in `user.go` pass `false`). -/
def StringInSlice (valid : List String) (ignoreCase : Bool) (v k : String) :
    List String × List String :=
  if valid.any (fun str => v == str || (ignoreCase && v.toLower == str.toLower)) then
    ([], [])
  else
    ([], ["expected " ++ k ++ " to be one of [" ++
      " ".intercalate (valid.map (fun str => "\"" ++ str ++ "\"")) ++ "], got " ++ v])

end validation

/-! ## Package `tableau`: the user client as seen by the resource callbacks -/

namespace tableau

/-- Modelled from the spec: the `User` record of package `tableau` (its declaration is
not part of the sources at hand). The identifier is a nullable pointer (`*u.ID` is
dereferenced in `resourceUserCreate`); the other five fields are plain strings. -/
structure User where
  ID : Option String
  Email : String
  Name : String
  FullName : String
  SiteRole : String
  AuthSetting : String
deriving DecidableEq, Repr

/-- The four user operations of `*tableau.Client` that `user.go` calls. Their bodies are
not part of the sources at hand, so they are parameters: each takes the server state and
its arguments and yields the next server state and either an error message or a user. -/
structure UserClient (σ : Type) where
  GetUser : σ → String → σ × Except String User
  CreateUser : σ → String → String → String → String → String → σ × Except String User
  UpdateUser : σ → String → String → String → String → String → σ × Except String User
  DeleteUser : σ → String → σ × Except String (Option User)

/-- A call that reached the client, with its arguments in the order of the Go signature. -/
inductive Call where
  | CreateUser (email name fullName siteRole authSetting : String)
  | UpdateUser (userID fullName email siteRole authSetting : String)
  | GetUser (userID : String)
  | DeleteUser (userID : String)
deriving DecidableEq, Repr

/-- Whether a logged call is an `UpdateUser`. -/
def Call.isUpdateUser : Call → Bool
  | Call.UpdateUser _ _ _ _ _ => true
  | _ => false

/-- Whether a logged call is a `GetUser`. -/
def Call.isGetUser : Call → Bool
  | Call.GetUser _ => true
  | _ => false

end tableau

/-! ## Package `tableau`: `group.go` -/

namespace json

/-- The JSON values that the request bodies of `group.go` are made of. -/
inductive Value where
  | null
  | str (s : String)
  | obj (fields : List (String × Value))

/-- The names of the top-level fields of a JSON object (none for other values). -/
def Value.fieldNames : Value → List String
  | Value.obj fields => fields.map (fun kv => kv.1)
  | _ => []

/-- The value of the top-level field `k` of a JSON object, when present. -/
def Value.field (k : String) : Value → Option Value
  | Value.obj fields => fields.lookup k
  | _ => none

/-- Encoding of a `*string`: `null` for `nil`, else the string. -/
def ofStringPtr : Option String → Value
  | none => Value.null
  | some s => Value.str s

end json

namespace strconv

/-- Go `strconv.Itoa`: the decimal text of an integer, with a leading `-` when negative. -/
def Itoa (i : Int) : String := toString i

end strconv

namespace tableau

/-- The least value of a Go `int` on a 64-bit target. -/
def minInt : Int := -9223372036854775808

/-- The greatest value of a Go `int` on a 64-bit target. -/
def maxInt : Int := 9223372036854775807

/-- Two's-complement wrap-around of a mathematical integer into the range of Go `int`. -/
def wrapInt (i : Int) : Int :=
  (i + 9223372036854775808) % 18446744073709551616 - 9223372036854775808

/-- The struct `GroupImport`. -/
structure GroupImport where
  MinimumSiteRole : Option String
  GrantLicenseMode : Option String
deriving DecidableEq, Repr

/-- The struct `NewGroup`. -/
structure NewGroup where
  Name : String
  MinimumSiteRole : Option String
deriving DecidableEq, Repr

/-- The struct `NewGroupRequest`. -/
structure NewGroupRequest where
  Group : NewGroup
deriving DecidableEq, Repr

/-- The struct `Group`. -/
structure Group where
  ID : Option String
  Name : String
  Import : GroupImport
deriving DecidableEq, Repr

/-- The struct `PaginationDetails`. -/
structure PaginationDetails where
  PageNumber : String
  PageSize : String
  TotalAvailable : String
deriving DecidableEq, Repr

/-- The struct `GroupResponse`. -/
structure GroupResponse where
  Group : Group
deriving DecidableEq, Repr

/-- The struct `GroupsResponse`. -/
structure GroupsResponse where
  Groups : List Group
deriving DecidableEq, Repr

/-- The struct `GroupListResponse`. -/
structure GroupListResponse where
  GroupsResponse : GroupsResponse
  Pagination : PaginationDetails
deriving DecidableEq, Repr

/-- Go `json.Marshal` of a `NewGroup`, following its field tags; it cannot fail. -/
def NewGroup.marshal (g : NewGroup) : Except String json.Value :=
  Except.ok (json.Value.obj
    [("name", json.Value.str g.Name), ("minimumSiteRole", json.ofStringPtr g.MinimumSiteRole)])

/-- Go `json.Marshal` of a `NewGroupRequest`, following its field tags; it cannot fail. -/
def NewGroupRequest.marshal (r : NewGroupRequest) : Except String json.Value :=
  match r.Group.marshal with
  | Except.ok v => Except.ok (json.Value.obj [("group", v)])
  | Except.error err => Except.error err

/-- An `*http.Request` as far as `group.go` fills it: method, URL and body (the body is
the JSON value whose encoding is sent; `none` for a `nil` body). -/
structure Request where
  Method : String
  URL : String
  Body : Option json.Value

/-- The `*tableau.Client` as `group.go` uses it. `ApiUrl` is its field. The rest is code
outside the sources at hand and is taken as parameters: `urlError` is the failure of
`http.NewRequest` on a URL (`none` when the URL parses), `doRequest` is the client's
transport method over the server state, `unmarshalGroupList` and `unmarshalGroup` are
`json.Unmarshal` into a `GroupListResponse` and a `GroupResponse`, and
`GetPaginationNumbers` yields `(pageNumber, totalPageCount)` or an error. -/
structure Client (σ : Type) where
  ApiUrl : String
  urlError : String → Option String
  doRequest : σ → Request → σ × Except String String
  unmarshalGroupList : String → Except String GroupListResponse
  unmarshalGroup : String → Except String GroupResponse
  GetPaginationNumbers : PaginationDetails → Except String (Int × Int)

/-- Go `http.NewRequest(method, url, body)` for the four methods used here. -/
def NewRequest {σ : Type} (c : Client σ) (method url : String) (body : Option json.Value) :
    Except String Request :=
  match c.urlError url with
  | some err => Except.error err
  | none => Except.ok { Method := method, URL := url, Body := body }

/-- What a client method yields: a value, an error, or a run-time panic. -/
inductive Res (α : Type) where
  | ok (a : α)
  | error (err : String)
  | panicked (msg : String)
deriving DecidableEq, Repr

/-- Everything observable after a client method ran: the server state, the requests
handed to `doRequest` in order, the lines printed to standard output in order, and the
result. -/
structure Exec (σ : Type) (α : Type) where
  server : σ
  requests : List Request
  stdout : List String
  result : Res α

/-- The first loop of `GetGroup`: the range over the groups of the first page, comparing
`*group.ID` with the requested identifier. -/
def scanGroups (groupID : String) : List Group → Res (Option Group)
  | [] => Res.ok none
  | group :: rest =>
    match group.ID with
    | none => Res.panicked "invalid memory address or nil pointer dereference"
    | some gid => if gid = groupID then Res.ok (some group) else scanGroups groupID rest

/-- The second loop of `GetGroup`, `for page := ...; page <= totalPageCount; page++`,
entered with the current value of `page`. Each round prints, builds the request for the
page, fetches it and decodes it; the decoded page is not looked at. `none` means that
the loop is still running after `fuel` rounds. The result `Res.ok ()` means that the
loop ran to its end. -/
def searchPages {σ : Type} (c : Client σ) (totalPageCount : Int) :
    Nat → σ → Int → Option (Exec σ Unit)
  | 0, s, page =>
    if page ≤ totalPageCount then none
    else some { server := s, requests := [], stdout := [], result := Res.ok () }
  | fuel + 1, s, page =>
    if page ≤ totalPageCount then
      let out := "Searching page " ++ strconv.Itoa page
      match NewRequest c "GET" (c.ApiUrl ++ "/groups?pageNumber=" ++ strconv.Itoa page) none with
      | Except.error err =>
        some { server := s, requests := [], stdout := [out], result := Res.error err }
      | Except.ok req =>
        let r := c.doRequest s req
        match r.2 with
        | Except.error err =>
          some { server := r.1, requests := [req], stdout := [out], result := Res.error err }
        | Except.ok body =>
          match c.unmarshalGroupList body with
          | Except.error err =>
            some { server := r.1, requests := [req], stdout := [out],
                   result := Res.error err }
          | Except.ok _ =>
            match searchPages c totalPageCount fuel r.1 (wrapInt (page + 1)) with
            | none => none
            | some e =>
              some { server := e.server, requests := req :: e.requests,
                     stdout := out :: e.stdout, result := e.result }
    else some { server := s, requests := [], stdout := [], result := Res.ok () }

/-- The method `GetGroup`. `none` means that the page loop is still running after `fuel`
rounds. -/
def GetGroup {σ : Type} (c : Client σ) (fuel : Nat) (s : σ) (groupID : String) :
    Option (Exec σ Group) :=
  match NewRequest c "GET" (c.ApiUrl ++ "/groups") none with
  | Except.error err =>
    some { server := s, requests := [], stdout := [], result := Res.error err }
  | Except.ok req =>
    let r := c.doRequest s req
    match r.2 with
    | Except.error err =>
      some { server := r.1, requests := [req], stdout := [], result := Res.error err }
    | Except.ok body =>
      match c.unmarshalGroupList body with
      | Except.error err =>
        some { server := r.1, requests := [req], stdout := [], result := Res.error err }
      | Except.ok groupListResponse =>
        match c.GetPaginationNumbers groupListResponse.Pagination with
        | Except.error err =>
          some { server := r.1, requests := [req], stdout := [], result := Res.error err }
        | Except.ok (pageNumber, totalPageCount) =>
          match scanGroups groupID groupListResponse.GroupsResponse.Groups with
          | Res.panicked msg =>
            some { server := r.1, requests := [req], stdout := [],
                   result := Res.panicked msg }
          | Res.error err =>
            some { server := r.1, requests := [req], stdout := [], result := Res.error err }
          | Res.ok (some group) =>
            some { server := r.1, requests := [req], stdout := [], result := Res.ok group }
          | Res.ok none =>
            match searchPages c totalPageCount fuel r.1 (wrapInt (pageNumber + 1)) with
            | none => none
            | some e =>
              match e.result with
              | Res.ok _ =>
                some { server := e.server, requests := req :: e.requests,
                       stdout := e.stdout,
                       result := Res.error ("Did not find group ID " ++ groupID) }
              | Res.error err =>
                some { server := e.server, requests := req :: e.requests,
                       stdout := e.stdout, result := Res.error err }
              | Res.panicked msg =>
                some { server := e.server, requests := req :: e.requests,
                       stdout := e.stdout, result := Res.panicked msg }

/-- The common tail of `CreateGroup` and `UpdateGroup`: send the request and decode the
answer as a `GroupResponse`. -/
def sendForGroup {σ : Type} (c : Client σ) (s : σ) (req : Request) : Exec σ Group :=
  let r := c.doRequest s req
  match r.2 with
  | Except.error err =>
    { server := r.1, requests := [req], stdout := [], result := Res.error err }
  | Except.ok body =>
    match c.unmarshalGroup body with
    | Except.error err =>
      { server := r.1, requests := [req], stdout := [], result := Res.error err }
    | Except.ok groupResponse =>
      { server := r.1, requests := [req], stdout := [], result := Res.ok groupResponse.Group }

/-- The method `CreateGroup`. -/
def CreateGroup {σ : Type} (c : Client σ) (s : σ) (name : String)
    (minimumSiteRole : Option String) : Exec σ Group :=
  let newGroup : NewGroupRequest :=
    { Group := { Name := name, MinimumSiteRole := minimumSiteRole } }
  match newGroup.marshal with
  | Except.error err =>
    { server := s, requests := [], stdout := [], result := Res.error err }
  | Except.ok newGroupJson =>
    match NewRequest c "POST" (c.ApiUrl ++ "/groups") (some newGroupJson) with
    | Except.error err =>
      { server := s, requests := [], stdout := [], result := Res.error err }
    | Except.ok req => sendForGroup c s req

/-- The method `UpdateGroup`. The value marshalled is the `NewGroup` itself. -/
def UpdateGroup {σ : Type} (c : Client σ) (s : σ) (groupID name minimumSiteRole : String) :
    Exec σ Group :=
  let newGroup : NewGroup := { Name := name, MinimumSiteRole := some minimumSiteRole }
  match newGroup.marshal with
  | Except.error err =>
    { server := s, requests := [], stdout := [], result := Res.error err }
  | Except.ok newGroupJson =>
    match NewRequest c "PUT" (c.ApiUrl ++ "/groups/" ++ groupID) (some newGroupJson) with
    | Except.error err =>
      { server := s, requests := [], stdout := [], result := Res.error err }
    | Except.ok req => sendForGroup c s req

/-- The method `DeleteGroup`: on success it returns `nil, nil`. -/
def DeleteGroup {σ : Type} (c : Client σ) (s : σ) (groupID : String) :
    Exec σ (Option Group) :=
  match NewRequest c "DELETE" (c.ApiUrl ++ "/groups/" ++ groupID) none with
  | Except.error err =>
    { server := s, requests := [], stdout := [], result := Res.error err }
  | Except.ok req =>
    let r := c.doRequest s req
    match r.2 with
    | Except.error err =>
      { server := r.1, requests := [req], stdout := [], result := Res.error err }
    | Except.ok _ =>
      { server := r.1, requests := [req], stdout := [], result := Res.ok none }

end tableau

/-! ## Package `resources`: `user.go` -/

namespace resources

open tableau

/-- The list `userSiteRoles`. -/
def userSiteRoles : List String :=
  ["Creator", "Explorer", "ExplorerCanPublish", "SiteAdministratorExplorer",
   "SiteAdministratorCreator", "Unlicensed", "Viewer"]

/-- The list `userAuthSettings`. -/
def userAuthSettings : List String :=
  ["SAML", "ServerDefault", "OpenID", "TABID_WITH_MFA"]

/-- The part of `schema.Schema` that `userSchema` fills. -/
structure Schema where
  Required : Bool
  Description : String
  ValidateFunc : Option (String → String → List String × List String)

/-- The map `userSchema`, as its list of entries. -/
def userSchema : List (String × Schema) :=
  [("email", { Required := true, Description := "User email", ValidateFunc := none }),
   ("name", { Required := true, Description := "User name", ValidateFunc := none }),
   ("full_name",
     { Required := true, Description := "Display name for user", ValidateFunc := none }),
   ("site_role",
     { Required := true, Description := "Site role for the user",
       ValidateFunc := some (validation.StringInSlice userSiteRoles false) }),
   ("auth_setting",
     { Required := true, Description := "Auth setting for the user",
       ValidateFunc := some (validation.StringInSlice userAuthSettings false) })]

/-- Runs the `ValidateFunc` that `userSchema` declares for attribute `k` on the value `v`;
an attribute without validator (or not in the schema) yields no warning and no error. -/
def validateAttribute (k v : String) : List String × List String :=
  match userSchema.lookup k with
  | some sch =>
    match sch.ValidateFunc with
    | some f => f v k
    | none => ([], [])
  | none => ([], [])

/-- The five string attributes of the user resource. -/
structure UserFields where
  email : String
  name : String
  full_name : String
  site_role : String
  auth_setting : String
deriving DecidableEq, Repr

/-- Attribute lookup by key; a key outside the five attributes reads as the zero value. -/
def UserFields.get (f : UserFields) (k : String) : String :=
  if k = "email" then f.email
  else if k = "name" then f.name
  else if k = "full_name" then f.full_name
  else if k = "site_role" then f.site_role
  else if k = "auth_setting" then f.auth_setting
  else ""

/-- The `*schema.ResourceData` handed to a callback: the identifier, the prior state, the
planned values (state merged with the diff), and the values written with `d.Set` during
the callback, most recent first. -/
structure ResourceData where
  id : String
  prior : UserFields
  planned : UserFields
  written : List (String × String)
deriving DecidableEq, Repr

/-- The resource data at the start of a callback: nothing written yet. -/
def ResourceData.fresh (id : String) (prior planned : UserFields) : ResourceData :=
  { id := id, prior := prior, planned := planned, written := [] }

/-- Go `d.Id()`. -/
def ResourceData.Id (d : ResourceData) : String := d.id

/-- Go `d.SetId(v)`. -/
def ResourceData.SetId (d : ResourceData) (v : String) : ResourceData :=
  { d with id := v }

/-- Go `d.Get(key).(string)`: the last value written with `d.Set`, else the planned one. -/
def ResourceData.Get (d : ResourceData) (key : String) : String :=
  match d.written.lookup key with
  | some v => v
  | none => d.planned.get key

/-- Go `d.HasChange(key)`: whether the planned value differs from the prior state. -/
def ResourceData.HasChange (d : ResourceData) (key : String) : Bool :=
  d.prior.get key != d.planned.get key

/-- Go `d.Set(key, value)` for a string value: fails for a key that the schema does not
declare, otherwise records the value. -/
def ResourceData.Set (d : ResourceData) (key value : String) : Except String ResourceData :=
  match userSchema.lookup key with
  | some _ => Except.ok { d with written := (key, value) :: d.written }
  | none => Except.error ("Invalid address to set: []string\x7b\"" ++ key ++ "\"\x7d")

/-- How a callback ended: it returned diagnostics, or the Go runtime panicked. -/
inductive Ret where
  | returned (diags : diag.Diagnostics)
  | panicked (msg : String)
deriving DecidableEq, Repr

/-- Everything observable after a callback ran: the server state, the client calls it
issued in order, the resource data, and how it ended. -/
structure Outcome (σ : Type) where
  server : σ
  calls : List Call
  d : ResourceData
  result : Ret

/-- The resource data after a read that fetched `user`: the five attributes written in
the order of the source. -/
def afterRead (d : ResourceData) (user : User) : ResourceData :=
  { d with written :=
      ("auth_setting", user.AuthSetting) :: ("site_role", user.SiteRole) ::
      ("full_name", user.FullName) :: ("name", user.Name) :: ("email", user.Email) ::
      d.written }

/-- The callback `resourceUserRead`. -/
def resourceUserRead {σ : Type} (c : UserClient σ) (s : σ) (d : ResourceData) : Outcome σ :=
  let userID := d.Id
  let r := c.GetUser s userID
  match r.2 with
  | Except.error err =>
    if strings.Contains err "404" then
      { server := r.1, calls := [Call.GetUser userID], d := d.SetId "",
        result := Ret.returned [] }
    else
      { server := r.1, calls := [Call.GetUser userID], d := d,
        result := Ret.returned (diag.FromErr err) }
  | Except.ok user =>
    match d.Set "email" user.Email with
    | Except.error err =>
      { server := r.1, calls := [Call.GetUser userID], d := d,
        result := Ret.returned (diag.FromErr err) }
    | Except.ok d1 =>
    match d1.Set "name" user.Name with
    | Except.error err =>
      { server := r.1, calls := [Call.GetUser userID], d := d1,
        result := Ret.returned (diag.FromErr err) }
    | Except.ok d2 =>
    match d2.Set "full_name" user.FullName with
    | Except.error err =>
      { server := r.1, calls := [Call.GetUser userID], d := d2,
        result := Ret.returned (diag.FromErr err) }
    | Except.ok d3 =>
    match d3.Set "site_role" user.SiteRole with
    | Except.error err =>
      { server := r.1, calls := [Call.GetUser userID], d := d3,
        result := Ret.returned (diag.FromErr err) }
    | Except.ok d4 =>
    match d4.Set "auth_setting" user.AuthSetting with
    | Except.error err =>
      { server := r.1, calls := [Call.GetUser userID], d := d4,
        result := Ret.returned (diag.FromErr err) }
    | Except.ok d5 =>
      { server := r.1, calls := [Call.GetUser userID], d := d5,
        result := Ret.returned [] }

/-- The callback `resourceUserCreate`. The diagnostics of the final `resourceUserRead`
are discarded, as in the source (`resourceUserRead(ctx, d, m)` is a plain statement). -/
def resourceUserCreate {σ : Type} (c : UserClient σ) (s : σ) (d : ResourceData) :
    Outcome σ :=
  let email := d.Get "email"
  let name := d.Get "name"
  let fullName := d.Get "full_name"
  let siteRole := d.Get "site_role"
  let authSetting := d.Get "auth_setting"
  let r := c.CreateUser s email name fullName siteRole authSetting
  let call1 := Call.CreateUser email name fullName siteRole authSetting
  match r.2 with
  | Except.error err =>
    { server := r.1, calls := [call1], d := d, result := Ret.returned (diag.FromErr err) }
  | Except.ok u =>
    match u.ID with
    | none =>
      { server := r.1, calls := [call1], d := d,
        result := Ret.panicked "invalid memory address or nil pointer dereference" }
    | some uid =>
      let d1 := d.SetId uid
      let r2 := c.UpdateUser r.1 uid fullName email siteRole authSetting
      let call2 := Call.UpdateUser uid fullName email siteRole authSetting
      match r2.2 with
      | Except.error err =>
        { server := r2.1, calls := [call1, call2], d := d1,
          result := Ret.returned (diag.FromErr err) }
      | Except.ok _ =>
        let rd := resourceUserRead c r2.1 d1
        { server := rd.server, calls := [call1, call2] ++ rd.calls, d := rd.d,
          result := Ret.returned [] }

/-- The callback `resourceUserUpdate`. -/
def resourceUserUpdate {σ : Type} (c : UserClient σ) (s : σ) (d : ResourceData) :
    Outcome σ :=
  let userId := d.Id
  if d.HasChange "full_name" || d.HasChange "email" || d.HasChange "site_role" ||
      d.HasChange "auth_setting" then
    let fullName := d.Get "full_name"
    let email := d.Get "email"
    let siteRole := d.Get "site_role"
    let authSetting := d.Get "auth_setting"
    let r := c.UpdateUser s userId fullName email siteRole authSetting
    let call1 := Call.UpdateUser userId fullName email siteRole authSetting
    match r.2 with
    | Except.error err =>
      { server := r.1, calls := [call1], d := d, result := Ret.returned (diag.FromErr err) }
    | Except.ok _ =>
      let rd := resourceUserRead c r.1 d
      { server := rd.server, calls := call1 :: rd.calls, d := rd.d, result := rd.result }
  else
    resourceUserRead c s d

/-- The callback `resourceUserDelete`. -/
def resourceUserDelete {σ : Type} (c : UserClient σ) (s : σ) (d : ResourceData) :
    Outcome σ :=
  let userId := d.Id
  let r := c.DeleteUser s userId
  match r.2 with
  | Except.error err =>
    { server := r.1, calls := [Call.DeleteUser userId], d := d,
      result := Ret.returned (diag.FromErr err) }
  | Except.ok _ =>
    { server := r.1, calls := [Call.DeleteUser userId], d := d, result := Ret.returned [] }

end resources

/-! ## Concrete clients used to exercise the definitions -/

namespace resources

open tableau

/-- A one-user in-memory server: `CreateUser` stores the user under the identifier
`u-1`, `UpdateUser` rewrites it, `GetUser` answers 404 for an unknown identifier and
`DeleteUser` forgets the user. -/
def memoryClient : UserClient (Option User) where
  GetUser := fun s userID =>
    match s with
    | some u => if u.ID = some userID then (s, Except.ok u)
                else (s, Except.error "GET users: 404 Not Found")
    | none => (s, Except.error "GET users: 404 Not Found")
  CreateUser := fun _ email name fullName siteRole authSetting =>
    let u : User := { ID := some "u-1", Email := email, Name := name, FullName := fullName,
                      SiteRole := siteRole, AuthSetting := authSetting }
    (some u, Except.ok u)
  UpdateUser := fun s userID fullName email siteRole authSetting =>
    match s with
    | some u =>
      if u.ID = some userID then
        let v : User := { u with Email := email, FullName := fullName, SiteRole := siteRole,
                                 AuthSetting := authSetting }
        (some v, Except.ok v)
      else (s, Except.error "PUT users: 404 Not Found")
    | none => (s, Except.error "PUT users: 404 Not Found")
  DeleteUser := fun s userID =>
    match s with
    | some u => if u.ID = some userID then (none, Except.ok none)
                else (s, Except.error "DELETE users: 404 Not Found")
    | none => (s, Except.error "DELETE users: 404 Not Found")

/-- The in-memory server behind a faulty transport: each operation with a message given
fails with that message and leaves the server untouched. -/
def faultyClient (createErr updateErr getErr : Option String) : UserClient (Option User) where
  GetUser := fun s userID =>
    match getErr with
    | some e => (s, Except.error e)
    | none => memoryClient.GetUser s userID
  CreateUser := fun s email name fullName siteRole authSetting =>
    match createErr with
    | some e => (s, Except.error e)
    | none => memoryClient.CreateUser s email name fullName siteRole authSetting
  UpdateUser := fun s userID fullName email siteRole authSetting =>
    match updateErr with
    | some e => (s, Except.error e)
    | none => memoryClient.UpdateUser s userID fullName email siteRole authSetting
  DeleteUser := memoryClient.DeleteUser

/-- Sample attribute values. -/
def aliceFields : UserFields :=
  { email := "alice@example.com", name := "alice", full_name := "Alice A",
    site_role := "Viewer", auth_setting := "SAML" }

/-- The sample user as the server stores it. -/
def aliceUser : User :=
  { ID := some "u-1", Email := "alice@example.com", Name := "alice", FullName := "Alice A",
    SiteRole := "Viewer", AuthSetting := "SAML" }

end resources

namespace tableau

/-- The request for the first page: `GET {ApiUrl}/groups`, without query and body. -/
def firstRequest {σ : Type} (c : Client σ) : Request :=
  { Method := "GET", URL := c.ApiUrl ++ "/groups", Body := none }

/-- The follow-up request for page `page`: `GET {ApiUrl}/groups?pageNumber=<page>`. -/
def pageRequest {σ : Type} (c : Client σ) (page : Int) : Request :=
  { Method := "GET", URL := c.ApiUrl ++ "/groups?pageNumber=" ++ strconv.Itoa page,
    Body := none }

/-- The `n` consecutive integers starting at `lo`. -/
def pagesFrom (lo : Int) : Nat → List Int
  | 0 => []
  | n + 1 => lo :: pagesFrom (lo + 1) n

/-- The integers `lo, lo + 1, ..., hi` in increasing order (none when `hi < lo`). -/
def pagesBetween (lo hi : Int) : List Int :=
  pagesFrom lo (hi + 1 - lo).toNat

/-- Whether, starting from server state `s`, the follow-up requests for the given pages
can all be built, are all answered, and all answers decode. -/
def followUpsSucceed {σ : Type} (c : Client σ) : σ → List Int → Bool
  | _, [] => true
  | s, page :: rest =>
    match c.urlError (c.ApiUrl ++ "/groups?pageNumber=" ++ strconv.Itoa page) with
    | some _ => false
    | none =>
      match (c.doRequest s (pageRequest c page)).2 with
      | Except.error _ => false
      | Except.ok body =>
        match c.unmarshalGroupList body with
        | Except.error _ => false
        | Except.ok _ => followUpsSucceed c (c.doRequest s (pageRequest c page)).1 rest

/-- The server state after the follow-up requests for the given pages. -/
def serverAfter {σ : Type} (c : Client σ) : σ → List Int → σ
  | s, [] => s
  | s, page :: rest => serverAfter c (c.doRequest s (pageRequest c page)).1 rest

/-- A sample group with the given identifier and name. -/
def sampleGroup (id : Option String) (name : String) : Group :=
  { ID := id, Name := name, Import := { MinimumSiteRole := none, GrantLicenseMode := none } }

/-- A sample server that counts the requests it received. The unparameterised listing
answers with `firstPage`, every `pageNumber` listing answers with a page that holds the
group `g-3`, and a `POST` or `PUT` answers with the group `g-9`. The pagination numbers
are the given pair. -/
def pagedClient (firstPage : List Group) (numbers : Int × Int) : Client Nat where
  ApiUrl := "https://tableau.example.com/api/3.19/sites/s1"
  urlError := fun _ => none
  doRequest := fun n req =>
    if req.Method = "GET" then
      if req.URL = "https://tableau.example.com/api/3.19/sites/s1/groups" then
        (n + 1, Except.ok "first")
      else (n + 1, Except.ok "later")
    else (n + 1, Except.ok "group")
  unmarshalGroupList := fun body =>
    if body = "first" then
      Except.ok { GroupsResponse := { Groups := firstPage },
                  Pagination := { PageNumber := "1", PageSize := "2", TotalAvailable := "3" } }
    else if body = "later" then
      Except.ok { GroupsResponse := { Groups := [sampleGroup (some "g-3") "Analysts"] },
                  Pagination := { PageNumber := "2", PageSize := "2", TotalAvailable := "3" } }
    else Except.error "unexpected end of JSON input"
  unmarshalGroup := fun body =>
    if body = "group" then Except.ok { Group := sampleGroup (some "g-9") "Analysts" }
    else Except.error "unexpected end of JSON input"
  GetPaginationNumbers := fun _ => Except.ok numbers

end tableau

/-! ## Facts about the library pieces -/

namespace strings

theorem startsWith_iff (sub s : List Char) : startsWith sub s = true ↔ sub <+: s := by
  induction sub generalizing s with
  | nil => simp [startsWith]
  | cons a as ih =>
    cases s with
    | nil => simp [startsWith]
    | cons b bs => simp [startsWith, ih, List.cons_prefix_cons]

theorem occursIn_iff (sub s : List Char) : occursIn sub s = true ↔ sub <:+: s := by
  induction s with
  | nil => simp [occursIn, startsWith_iff]
  | cons c cs ih => simp [occursIn, startsWith_iff, ih, List.infix_cons_iff]

/-- The embedding of `strings.Contains` decides the infix relation on the characters. -/
theorem Contains_iff (s substr : String) :
    Contains s substr = true ↔ substr.data <:+: s.data := by
  simp [Contains, occursIn_iff]

end strings

namespace resources

open tableau

theorem Set_email (d : ResourceData) (v : String) :
    d.Set "email" v = Except.ok { d with written := ("email", v) :: d.written } := rfl

theorem Set_name (d : ResourceData) (v : String) :
    d.Set "name" v = Except.ok { d with written := ("name", v) :: d.written } := rfl

theorem Set_full_name (d : ResourceData) (v : String) :
    d.Set "full_name" v = Except.ok { d with written := ("full_name", v) :: d.written } := rfl

theorem Set_site_role (d : ResourceData) (v : String) :
    d.Set "site_role" v = Except.ok { d with written := ("site_role", v) :: d.written } := rfl

theorem Set_auth_setting (d : ResourceData) (v : String) :
    d.Set "auth_setting" v =
      Except.ok { d with written := ("auth_setting", v) :: d.written } := rfl

theorem resourceUserRead_ok {σ : Type} (c : UserClient σ) (s : σ) (d : ResourceData)
    (user : User) (hget : (c.GetUser s d.Id).2 = Except.ok user) :
    resourceUserRead c s d =
      { server := (c.GetUser s d.Id).1, calls := [Call.GetUser d.Id],
        d := afterRead d user, result := Ret.returned [] } := by
  simp only [resourceUserRead, hget, Set_email, Set_name, Set_full_name, Set_site_role,
    Set_auth_setting, afterRead]

theorem afterRead_Get (d : ResourceData) (user : User) :
    (afterRead d user).Get "email" = user.Email ∧
    (afterRead d user).Get "name" = user.Name ∧
    (afterRead d user).Get "full_name" = user.FullName ∧
    (afterRead d user).Get "site_role" = user.SiteRole ∧
    (afterRead d user).Get "auth_setting" = user.AuthSetting := by
  refine ⟨?_, ?_, ?_, ?_, ?_⟩ <;> simp [afterRead, ResourceData.Get, List.lookup]

theorem resourceUserRead_calls {σ : Type} (c : UserClient σ) (s : σ) (d : ResourceData) :
    (resourceUserRead c s d).calls = [Call.GetUser d.Id] := by
  cases hget : (c.GetUser s d.Id).2 with
  | error err =>
    by_cases h404 : strings.Contains err "404" = true
    · simp only [resourceUserRead, hget, h404, if_true]
    · simp only [resourceUserRead, hget, h404]
      simp
  | ok user => rw [resourceUserRead_ok c s d user hget]

theorem fresh_HasChange (id : String) (prior planned : UserFields) :
    (ResourceData.fresh id prior planned).HasChange "full_name" =
      (prior.full_name != planned.full_name) ∧
    (ResourceData.fresh id prior planned).HasChange "email" =
      (prior.email != planned.email) ∧
    (ResourceData.fresh id prior planned).HasChange "site_role" =
      (prior.site_role != planned.site_role) ∧
    (ResourceData.fresh id prior planned).HasChange "auth_setting" =
      (prior.auth_setting != planned.auth_setting) := by
  refine ⟨?_, ?_, ?_, ?_⟩ <;>
    simp [ResourceData.HasChange, ResourceData.fresh, UserFields.get]

theorem fresh_Get (id : String) (prior planned : UserFields) :
    (ResourceData.fresh id prior planned).Get "full_name" = planned.full_name ∧
    (ResourceData.fresh id prior planned).Get "email" = planned.email ∧
    (ResourceData.fresh id prior planned).Get "site_role" = planned.site_role ∧
    (ResourceData.fresh id prior planned).Get "auth_setting" = planned.auth_setting := by
  refine ⟨?_, ?_, ?_, ?_⟩ <;>
    simp [ResourceData.Get, ResourceData.fresh, UserFields.get, List.lookup]

/-! ## The user callbacks -/

/-- C1. `resourceUserRead`, not-found case: when `GetUser` fails with a message that
contains `404`, the read returns no diagnostics, the identifier becomes the empty string,
nothing is written to the five attributes (prior state, planned values and written
values are those of before), and `GetUser` was the only call. -/
theorem resourceUserRead_not_found {σ : Type} (c : UserClient σ) (s : σ) (d : ResourceData)
    (err : String) (hget : (c.GetUser s d.Id).2 = Except.error err)
    (h404 : strings.Contains err "404" = true) :
    (resourceUserRead c s d).result = Ret.returned [] ∧
    (resourceUserRead c s d).d.Id = "" ∧
    (resourceUserRead c s d).d.written = d.written ∧
    (resourceUserRead c s d).d.planned = d.planned ∧
    (resourceUserRead c s d).d.prior = d.prior ∧
    (∀ key, (resourceUserRead c s d).d.Get key = d.Get key) ∧
    (resourceUserRead c s d).calls = [Call.GetUser d.Id] := by
  have h : resourceUserRead c s d =
      { server := (c.GetUser s d.Id).1, calls := [Call.GetUser d.Id], d := d.SetId "",
        result := Ret.returned [] } := by
    simp only [resourceUserRead, hget, h404, if_true]
  rw [h]
  simp [ResourceData.SetId, ResourceData.Id, ResourceData.Get]

theorem resourceUserRead_not_found_witness :
    strings.Contains "GET users: 404 Not Found" "404" = true ∧
    (resourceUserRead memoryClient none (ResourceData.fresh "u-9" aliceFields aliceFields)).result
      = Ret.returned [] ∧
    (resourceUserRead memoryClient none (ResourceData.fresh "u-9" aliceFields aliceFields)).d.Id
      = "" :=
  have h := resourceUserRead_not_found memoryClient none
    (ResourceData.fresh "u-9" aliceFields aliceFields) "GET users: 404 Not Found" rfl
    (by decide)
  ⟨by decide, h.1, h.2.1⟩

/-- C2. `resourceUserRead`, other-failure case: when `GetUser` fails with a message that
does not contain `404`, the read returns exactly one error diagnostic whose summary is
that message, and the resource data (identifier and attributes) is left as it was. -/
theorem resourceUserRead_other_failure {σ : Type} (c : UserClient σ) (s : σ)
    (d : ResourceData) (err : String) (hget : (c.GetUser s d.Id).2 = Except.error err)
    (h404 : strings.Contains err "404" = false) :
    (resourceUserRead c s d).result =
      Ret.returned [{ Severity := diag.Severity.Error, Summary := err }] ∧
    (resourceUserRead c s d).d = d ∧
    (resourceUserRead c s d).calls = [Call.GetUser d.Id] := by
  have h : resourceUserRead c s d =
      { server := (c.GetUser s d.Id).1, calls := [Call.GetUser d.Id], d := d,
        result := Ret.returned (diag.FromErr err) } := by
    simp only [resourceUserRead, hget, h404]
    simp
  rw [h]
  simp [diag.FromErr]

theorem resourceUserRead_other_failure_witness :
    strings.Contains "500 Internal Server Error" "404" = false ∧
    (resourceUserRead (faultyClient none none (some "500 Internal Server Error")) (some aliceUser)
      (ResourceData.fresh "u-1" aliceFields aliceFields)).result =
      Ret.returned [{ Severity := diag.Severity.Error,
                      Summary := "500 Internal Server Error" }] ∧
    (resourceUserRead (faultyClient none none (some "500 Internal Server Error")) (some aliceUser)
      (ResourceData.fresh "u-1" aliceFields aliceFields)).d =
      ResourceData.fresh "u-1" aliceFields aliceFields :=
  have h := resourceUserRead_other_failure
    (faultyClient none none (some "500 Internal Server Error")) (some aliceUser)
    (ResourceData.fresh "u-1" aliceFields aliceFields) "500 Internal Server Error" rfl
    (by decide)
  ⟨by decide, h.1, h.2.1⟩

/-- C3. `resourceUserUpdate`, change guard. For a prior state and planned values that
agree on `full_name`, `email`, `site_role` and `auth_setting` (whatever `name` is), the
update is the read: same outcome, the only call is one `GetUser`, and the log holds no
`UpdateUser`. If one of the four differs, the first call is an `UpdateUser` with the
identifier and the four planned values, it is the only `UpdateUser`, and the read (one
`GetUser`) follows it when it succeeded, giving the result and data of that read; when
it failed its error is returned and nothing else is called. -/
theorem resourceUserUpdate_change_guard {σ : Type} (c : UserClient σ) (s : σ) (id : String)
    (prior planned : UserFields) :
    ((prior.full_name = planned.full_name ∧ prior.email = planned.email ∧
        prior.site_role = planned.site_role ∧ prior.auth_setting = planned.auth_setting) →
      resourceUserUpdate c s (ResourceData.fresh id prior planned) =
        resourceUserRead c s (ResourceData.fresh id prior planned) ∧
      (resourceUserUpdate c s (ResourceData.fresh id prior planned)).calls =
        [Call.GetUser id] ∧
      (resourceUserUpdate c s (ResourceData.fresh id prior planned)).calls.countP
        Call.isUpdateUser = 0 ∧
      (resourceUserUpdate c s (ResourceData.fresh id prior planned)).calls.countP
        Call.isGetUser = 1) ∧
    (¬ (prior.full_name = planned.full_name ∧ prior.email = planned.email ∧
        prior.site_role = planned.site_role ∧ prior.auth_setting = planned.auth_setting) →
      (resourceUserUpdate c s (ResourceData.fresh id prior planned)).calls =
        Call.UpdateUser id planned.full_name planned.email planned.site_role
            planned.auth_setting ::
          (match (c.UpdateUser s id planned.full_name planned.email planned.site_role
              planned.auth_setting).2 with
           | Except.ok _ => [Call.GetUser id]
           | Except.error _ => []) ∧
      (resourceUserUpdate c s (ResourceData.fresh id prior planned)).calls.countP
        Call.isUpdateUser = 1 ∧
      (∀ u, (c.UpdateUser s id planned.full_name planned.email planned.site_role
              planned.auth_setting).2 = Except.ok u →
        (resourceUserUpdate c s (ResourceData.fresh id prior planned)).result =
          (resourceUserRead c (c.UpdateUser s id planned.full_name planned.email
            planned.site_role planned.auth_setting).1
            (ResourceData.fresh id prior planned)).result ∧
        (resourceUserUpdate c s (ResourceData.fresh id prior planned)).d =
          (resourceUserRead c (c.UpdateUser s id planned.full_name planned.email
            planned.site_role planned.auth_setting).1
            (ResourceData.fresh id prior planned)).d) ∧
      (∀ err, (c.UpdateUser s id planned.full_name planned.email planned.site_role
              planned.auth_setting).2 = Except.error err →
        (resourceUserUpdate c s (ResourceData.fresh id prior planned)).result =
          Ret.returned [{ Severity := diag.Severity.Error, Summary := err }] ∧
        (resourceUserUpdate c s (ResourceData.fresh id prior planned)).d =
          ResourceData.fresh id prior planned)) := by
  obtain ⟨hc1, hc2, hc3, hc4⟩ := fresh_HasChange id prior planned
  obtain ⟨hg1, hg2, hg3, hg4⟩ := fresh_Get id prior planned
  have hid : (ResourceData.fresh id prior planned).Id = id := rfl
  constructor
  · rintro ⟨h1, h2, h3, h4⟩
    have hu : resourceUserUpdate c s (ResourceData.fresh id prior planned) =
        resourceUserRead c s (ResourceData.fresh id prior planned) := by
      simp [resourceUserUpdate, hc1, hc2, hc3, hc4, h1, h2, h3, h4]
    rw [hu, resourceUserRead_calls, hid]
    exact ⟨rfl, rfl, rfl, rfl⟩
  · intro hne
    have hcond : ((ResourceData.fresh id prior planned).HasChange "full_name" ||
        (ResourceData.fresh id prior planned).HasChange "email" ||
        (ResourceData.fresh id prior planned).HasChange "site_role" ||
        (ResourceData.fresh id prior planned).HasChange "auth_setting") = true := by
      rw [hc1, hc2, hc3, hc4]
      by_contra hfalse
      apply hne
      simp at hfalse
      exact ⟨hfalse.1.1.1, hfalse.1.1.2, hfalse.1.2, hfalse.2⟩
    cases hupd : (c.UpdateUser s id planned.full_name planned.email planned.site_role
        planned.auth_setting).2 with
    | error err =>
      have hu : resourceUserUpdate c s (ResourceData.fresh id prior planned) =
          { server := (c.UpdateUser s id planned.full_name planned.email planned.site_role
              planned.auth_setting).1,
            calls := [Call.UpdateUser id planned.full_name planned.email planned.site_role
              planned.auth_setting],
            d := ResourceData.fresh id prior planned,
            result := Ret.returned (diag.FromErr err) } := by
        simp only [resourceUserUpdate, hcond, if_true, hg1, hg2, hg3, hg4, hid, hupd]
      rw [hu]
      simp [diag.FromErr, Call.isUpdateUser]
    | ok u =>
      have hu : resourceUserUpdate c s (ResourceData.fresh id prior planned) =
          { server := (resourceUserRead c (c.UpdateUser s id planned.full_name planned.email
              planned.site_role planned.auth_setting).1
              (ResourceData.fresh id prior planned)).server,
            calls := Call.UpdateUser id planned.full_name planned.email planned.site_role
              planned.auth_setting ::
              (resourceUserRead c (c.UpdateUser s id planned.full_name planned.email
              planned.site_role planned.auth_setting).1
              (ResourceData.fresh id prior planned)).calls,
            d := (resourceUserRead c (c.UpdateUser s id planned.full_name planned.email
              planned.site_role planned.auth_setting).1
              (ResourceData.fresh id prior planned)).d,
            result := (resourceUserRead c (c.UpdateUser s id planned.full_name planned.email
              planned.site_role planned.auth_setting).1
              (ResourceData.fresh id prior planned)).result } := by
        simp only [resourceUserUpdate, hcond, if_true, hg1, hg2, hg3, hg4, hid, hupd]
      rw [hu, resourceUserRead_calls, hid]
      simp [Call.isUpdateUser]

theorem resourceUserUpdate_change_guard_witness :
    (resourceUserUpdate memoryClient (some aliceUser)
        (ResourceData.fresh "u-1" aliceFields { aliceFields with name := "alice2" })).calls =
      [Call.GetUser "u-1"] ∧
    (resourceUserUpdate memoryClient (some aliceUser)
        (ResourceData.fresh "u-1" aliceFields { aliceFields with site_role := "Creator" })).calls =
      [Call.UpdateUser "u-1" "Alice A" "alice@example.com" "Creator" "SAML",
       Call.GetUser "u-1"] :=
  ⟨((resourceUserUpdate_change_guard memoryClient (some aliceUser) "u-1" aliceFields
      { aliceFields with name := "alice2" }).1 (by decide)).2.1,
   ((resourceUserUpdate_change_guard memoryClient (some aliceUser) "u-1" aliceFields
      { aliceFields with site_role := "Creator" }).2 (by decide)).1⟩

/-- C6. `resourceUserCreate`, call sequence. When `CreateUser` succeeds and returns the
identifier `uid`, and the following `UpdateUser` and `GetUser` succeed, the calls are
exactly `CreateUser` with the five input values, `UpdateUser` with `uid` and the same
input values, and `GetUser uid`, in this order; afterwards the identifier is `uid`, the
five attributes read as those of the user that `GetUser` returned, and the callback
returns no diagnostics. -/
theorem resourceUserCreate_call_sequence {σ : Type} (c : UserClient σ) (s : σ)
    (d : ResourceData) (u u2 user : User) (uid : String)
    (hcreate : (c.CreateUser s (d.Get "email") (d.Get "name") (d.Get "full_name")
        (d.Get "site_role") (d.Get "auth_setting")).2 = Except.ok u)
    (hid : u.ID = some uid)
    (hupdate : (c.UpdateUser
        (c.CreateUser s (d.Get "email") (d.Get "name") (d.Get "full_name")
          (d.Get "site_role") (d.Get "auth_setting")).1
        uid (d.Get "full_name") (d.Get "email") (d.Get "site_role")
        (d.Get "auth_setting")).2 = Except.ok u2)
    (hget : (c.GetUser
        (c.UpdateUser
          (c.CreateUser s (d.Get "email") (d.Get "name") (d.Get "full_name")
            (d.Get "site_role") (d.Get "auth_setting")).1
          uid (d.Get "full_name") (d.Get "email") (d.Get "site_role")
          (d.Get "auth_setting")).1 uid).2 = Except.ok user) :
    (resourceUserCreate c s d).calls =
      [Call.CreateUser (d.Get "email") (d.Get "name") (d.Get "full_name") (d.Get "site_role")
         (d.Get "auth_setting"),
       Call.UpdateUser uid (d.Get "full_name") (d.Get "email") (d.Get "site_role")
         (d.Get "auth_setting"),
       Call.GetUser uid] ∧
    (resourceUserCreate c s d).d.Id = uid ∧
    (resourceUserCreate c s d).d.Get "email" = user.Email ∧
    (resourceUserCreate c s d).d.Get "name" = user.Name ∧
    (resourceUserCreate c s d).d.Get "full_name" = user.FullName ∧
    (resourceUserCreate c s d).d.Get "site_role" = user.SiteRole ∧
    (resourceUserCreate c s d).d.Get "auth_setting" = user.AuthSetting ∧
    (resourceUserCreate c s d).result = Ret.returned [] := by
  have hsid : (d.SetId uid).Id = uid := rfl
  have hread := resourceUserRead_ok c
    (c.UpdateUser
      (c.CreateUser s (d.Get "email") (d.Get "name") (d.Get "full_name")
        (d.Get "site_role") (d.Get "auth_setting")).1
      uid (d.Get "full_name") (d.Get "email") (d.Get "site_role")
      (d.Get "auth_setting")).1 (d.SetId uid) user (by rw [hsid]; exact hget)
  have hc : resourceUserCreate c s d =
      { server := (c.GetUser
          (c.UpdateUser
            (c.CreateUser s (d.Get "email") (d.Get "name") (d.Get "full_name")
              (d.Get "site_role") (d.Get "auth_setting")).1
            uid (d.Get "full_name") (d.Get "email") (d.Get "site_role")
            (d.Get "auth_setting")).1 uid).1,
        calls :=
          [Call.CreateUser (d.Get "email") (d.Get "name") (d.Get "full_name")
             (d.Get "site_role") (d.Get "auth_setting"),
           Call.UpdateUser uid (d.Get "full_name") (d.Get "email") (d.Get "site_role")
             (d.Get "auth_setting"),
           Call.GetUser uid],
        d := afterRead (d.SetId uid) user,
        result := Ret.returned [] } := by
    simp only [resourceUserCreate, hcreate, hid, hupdate, hread, hsid]
    rfl
  rw [hc]
  obtain ⟨h1, h2, h3, h4, h5⟩ := afterRead_Get (d.SetId uid) user
  exact ⟨rfl, rfl, h1, h2, h3, h4, h5, rfl⟩

theorem resourceUserCreate_call_sequence_witness :
    (resourceUserCreate memoryClient none (ResourceData.fresh "" aliceFields aliceFields)).calls =
      [Call.CreateUser "alice@example.com" "alice" "Alice A" "Viewer" "SAML",
       Call.UpdateUser "u-1" "Alice A" "alice@example.com" "Viewer" "SAML",
       Call.GetUser "u-1"] ∧
    (resourceUserCreate memoryClient none (ResourceData.fresh "" aliceFields aliceFields)).d.Id =
      "u-1" :=
  have h := resourceUserCreate_call_sequence memoryClient none
    (ResourceData.fresh "" aliceFields aliceFields) aliceUser aliceUser aliceUser "u-1"
    rfl rfl rfl rfl
  ⟨h.1, h.2.1⟩

/-- C10. `resourceUserCreate` on partial failure. If `CreateUser` fails, its error is
returned, the resource data (identifier included) is untouched, and `CreateUser` is the
only call. If `CreateUser` succeeds with the identifier `uid` and the following
`UpdateUser` fails, that error is returned, the calls are `CreateUser` and `UpdateUser`
only (no `GetUser`), and the identifier stays bound to `uid`. -/
theorem resourceUserCreate_partial_failure {σ : Type} (c : UserClient σ) (s : σ)
    (d : ResourceData) :
    (∀ err, (c.CreateUser s (d.Get "email") (d.Get "name") (d.Get "full_name")
        (d.Get "site_role") (d.Get "auth_setting")).2 = Except.error err →
      (resourceUserCreate c s d).result =
        Ret.returned [{ Severity := diag.Severity.Error, Summary := err }] ∧
      (resourceUserCreate c s d).d = d ∧
      (resourceUserCreate c s d).calls =
        [Call.CreateUser (d.Get "email") (d.Get "name") (d.Get "full_name")
           (d.Get "site_role") (d.Get "auth_setting")]) ∧
    (∀ u uid err, (c.CreateUser s (d.Get "email") (d.Get "name") (d.Get "full_name")
        (d.Get "site_role") (d.Get "auth_setting")).2 = Except.ok u →
      u.ID = some uid →
      (c.UpdateUser
        (c.CreateUser s (d.Get "email") (d.Get "name") (d.Get "full_name")
          (d.Get "site_role") (d.Get "auth_setting")).1
        uid (d.Get "full_name") (d.Get "email") (d.Get "site_role")
        (d.Get "auth_setting")).2 = Except.error err →
      (resourceUserCreate c s d).result =
        Ret.returned [{ Severity := diag.Severity.Error, Summary := err }] ∧
      (resourceUserCreate c s d).d.Id = uid ∧
      (resourceUserCreate c s d).d = d.SetId uid ∧
      (resourceUserCreate c s d).calls =
        [Call.CreateUser (d.Get "email") (d.Get "name") (d.Get "full_name")
           (d.Get "site_role") (d.Get "auth_setting"),
         Call.UpdateUser uid (d.Get "full_name") (d.Get "email") (d.Get "site_role")
           (d.Get "auth_setting")]) := by
  constructor
  · intro err hcreate
    simp only [resourceUserCreate, hcreate]
    simp [diag.FromErr]
  · intro u uid err hcreate hid hupdate
    simp only [resourceUserCreate, hcreate, hid, hupdate]
    simp [diag.FromErr, ResourceData.SetId, ResourceData.Id]

theorem resourceUserCreate_partial_failure_witness :
    ((resourceUserCreate (faultyClient (some "503 Service Unavailable") none none) none
        (ResourceData.fresh "" aliceFields aliceFields)).calls =
      [Call.CreateUser "alice@example.com" "alice" "Alice A" "Viewer" "SAML"] ∧
     (resourceUserCreate (faultyClient (some "503 Service Unavailable") none none) none
        (ResourceData.fresh "" aliceFields aliceFields)).d.Id = "") ∧
    ((resourceUserCreate (faultyClient none (some "503 Service Unavailable") none) none
        (ResourceData.fresh "" aliceFields aliceFields)).calls =
      [Call.CreateUser "alice@example.com" "alice" "Alice A" "Viewer" "SAML",
       Call.UpdateUser "u-1" "Alice A" "alice@example.com" "Viewer" "SAML"] ∧
     (resourceUserCreate (faultyClient none (some "503 Service Unavailable") none) none
        (ResourceData.fresh "" aliceFields aliceFields)).d.Id = "u-1") :=
  have h1 := (resourceUserCreate_partial_failure
    (faultyClient (some "503 Service Unavailable") none none) none
    (ResourceData.fresh "" aliceFields aliceFields)).1 "503 Service Unavailable" rfl
  have h2 := (resourceUserCreate_partial_failure
    (faultyClient none (some "503 Service Unavailable") none) none
    (ResourceData.fresh "" aliceFields aliceFields)).2 aliceUser "u-1"
    "503 Service Unavailable" rfl rfl rfl
  ⟨⟨h1.2.2, congrArg ResourceData.Id h1.2.1⟩, ⟨h2.2.2.2, h2.2.1⟩⟩

theorem resourceUserDelete_error {σ : Type} (c : UserClient σ) (s : σ) (d : ResourceData)
    (err : String) (hdel : (c.DeleteUser s d.Id).2 = Except.error err) :
    (resourceUserDelete c s d).result =
      Ret.returned [{ Severity := diag.Severity.Error, Summary := err }] ∧
    (resourceUserDelete c s d).calls = [Call.DeleteUser d.Id] := by
  simp only [resourceUserDelete, hdel]
  simp [diag.FromErr]

/-- C7. `resourceUserCreate` drops the diagnostics of its final read. On a server where
`CreateUser` and `UpdateUser` succeed and `GetUser` fails with
`500 Internal Server Error`, the create callback issues the three calls and returns no
diagnostics, although the last call failed; `resourceUserUpdate` on the same server
returns the error diagnostic of the same failing read. -/
theorem resourceUserCreate_drops_read_error :
    (resourceUserCreate (faultyClient none none (some "500 Internal Server Error")) none
        (ResourceData.fresh "" aliceFields aliceFields)).calls =
      [Call.CreateUser "alice@example.com" "alice" "Alice A" "Viewer" "SAML",
       Call.UpdateUser "u-1" "Alice A" "alice@example.com" "Viewer" "SAML",
       Call.GetUser "u-1"] ∧
    ((faultyClient none none (some "500 Internal Server Error")).GetUser (some aliceUser)
        "u-1").2 = Except.error "500 Internal Server Error" ∧
    (resourceUserCreate (faultyClient none none (some "500 Internal Server Error")) none
        (ResourceData.fresh "" aliceFields aliceFields)).result = Ret.returned [] ∧
    (resourceUserRead (faultyClient none none (some "500 Internal Server Error"))
        (some aliceUser) (ResourceData.fresh "u-1" aliceFields aliceFields)).result =
      Ret.returned [{ Severity := diag.Severity.Error,
                      Summary := "500 Internal Server Error" }] ∧
    (resourceUserUpdate (faultyClient none none (some "500 Internal Server Error"))
        (some aliceUser)
        (ResourceData.fresh "u-1" aliceFields { aliceFields with site_role := "Creator" })).result =
      Ret.returned [{ Severity := diag.Severity.Error,
                      Summary := "500 Internal Server Error" }] := by
  exact ⟨by decide, rfl, by decide, by decide, by decide⟩

theorem validateAttribute_site_role (s : String) :
    validateAttribute "site_role" s =
      validation.StringInSlice userSiteRoles false s "site_role" := rfl

theorem validateAttribute_auth_setting (s : String) :
    validateAttribute "auth_setting" s =
      validation.StringInSlice userAuthSettings false s "auth_setting" := rfl

/-- C9. Enumeration validation. The validator that `userSchema` attaches to `site_role`
reports no error exactly for the seven listed strings, and the one attached to
`auth_setting` exactly for the four listed strings (compared as they are, case
included); every other value yields exactly one validation error. The validator is a
function of the value and the attribute key alone: it has no client at hand, so a
rejection involves no remote call. -/
theorem userSchema_enumeration_validation (s : String) :
    ((validateAttribute "site_role" s).2 = [] ↔
      (s = "Creator" ∨ s = "Explorer" ∨ s = "ExplorerCanPublish" ∨
       s = "SiteAdministratorExplorer" ∨ s = "SiteAdministratorCreator" ∨
       s = "Unlicensed" ∨ s = "Viewer")) ∧
    ((validateAttribute "auth_setting" s).2 = [] ↔
      (s = "SAML" ∨ s = "ServerDefault" ∨ s = "OpenID" ∨ s = "TABID_WITH_MFA")) ∧
    (¬ (s = "Creator" ∨ s = "Explorer" ∨ s = "ExplorerCanPublish" ∨
       s = "SiteAdministratorExplorer" ∨ s = "SiteAdministratorCreator" ∨
       s = "Unlicensed" ∨ s = "Viewer") →
      ∃ msg, validateAttribute "site_role" s = ([], [msg])) ∧
    (¬ (s = "SAML" ∨ s = "ServerDefault" ∨ s = "OpenID" ∨ s = "TABID_WITH_MFA") →
      ∃ msg, validateAttribute "auth_setting" s = ([], [msg])) := by
  rw [validateAttribute_site_role, validateAttribute_auth_setting]
  refine ⟨?_, ?_, ?_, ?_⟩
  · by_cases h : (s = "Creator" ∨ s = "Explorer" ∨ s = "ExplorerCanPublish" ∨
       s = "SiteAdministratorExplorer" ∨ s = "SiteAdministratorCreator" ∨
       s = "Unlicensed" ∨ s = "Viewer")
    · simp [validation.StringInSlice, userSiteRoles, h]
    · simp [validation.StringInSlice, userSiteRoles, h]
  · by_cases h : (s = "SAML" ∨ s = "ServerDefault" ∨ s = "OpenID" ∨ s = "TABID_WITH_MFA")
    · simp [validation.StringInSlice, userAuthSettings, h]
    · simp [validation.StringInSlice, userAuthSettings, h]
  · intro h
    simp [validation.StringInSlice, userSiteRoles, h]
  · intro h
    simp [validation.StringInSlice, userAuthSettings, h]

theorem userSchema_enumeration_validation_witness :
    (validateAttribute "site_role" "Viewer").2 = [] ∧
    (validateAttribute "auth_setting" "OpenID").2 = [] ∧
    (∃ msg, validateAttribute "site_role" "viewer" = ([], [msg])) ∧
    (∃ msg, validateAttribute "auth_setting" "LDAP" = ([], [msg])) :=
  ⟨(userSchema_enumeration_validation "Viewer").1.2 (by decide),
   (userSchema_enumeration_validation "OpenID").2.1.2 (by decide),
   (userSchema_enumeration_validation "viewer").2.2.1 (by decide),
   (userSchema_enumeration_validation "LDAP").2.2.2 (by decide)⟩

end resources

/-! ## The group client -/

namespace tableau

theorem wrapInt_of_range (i : Int) (h1 : minInt ≤ i) (h2 : i ≤ maxInt) : wrapInt i = i := by
  unfold minInt at h1
  unfold maxInt at h2
  unfold wrapInt
  omega

theorem pagesBetween_cons (lo hi : Int) (h : lo ≤ hi) :
    pagesBetween lo hi = lo :: pagesBetween (lo + 1) hi := by
  unfold pagesBetween
  have hn : (hi + 1 - lo).toNat = (hi + 1 - (lo + 1)).toNat + 1 := by omega
  rw [hn]
  rfl

theorem pagesBetween_nil (lo hi : Int) (h : hi < lo) : pagesBetween lo hi = [] := by
  unfold pagesBetween
  have hn : (hi + 1 - lo).toNat = 0 := by omega
  rw [hn]
  rfl

theorem mem_pagesFrom (n : Nat) (lo p : Int) :
    p ∈ pagesFrom lo n ↔ lo ≤ p ∧ p < lo + n := by
  induction n generalizing lo with
  | zero => simp [pagesFrom]
  | succ n ih =>
    simp only [pagesFrom, List.mem_cons, ih]
    push_cast
    omega

theorem mem_pagesBetween (lo hi p : Int) : p ∈ pagesBetween lo hi ↔ lo ≤ p ∧ p ≤ hi := by
  unfold pagesBetween
  rw [mem_pagesFrom]
  omega

theorem pagesFrom_increasing (n : Nat) (lo : Int) :
    (pagesFrom lo n).Pairwise (fun a b => a < b) := by
  induction n generalizing lo with
  | zero => simp [pagesFrom]
  | succ n ih =>
    simp only [pagesFrom, List.pairwise_cons]
    refine ⟨?_, ih (lo + 1)⟩
    intro p hp
    rw [mem_pagesFrom] at hp
    omega

theorem scanGroups_miss (groupID : String) (groups : List Group)
    (hnonnull : ∀ g ∈ groups, g.ID ≠ none) (hmiss : ∀ g ∈ groups, g.ID ≠ some groupID) :
    scanGroups groupID groups = Res.ok none := by
  induction groups with
  | nil => rfl
  | cons g rest ih =>
    have hg1 := hnonnull g (List.mem_cons_self g rest)
    have hg2 := hmiss g (List.mem_cons_self g rest)
    cases hid : g.ID with
    | none => exact absurd hid hg1
    | some gid =>
      have hne : gid ≠ groupID := by
        intro h
        apply hg2
        rw [hid, h]
      simp only [scanGroups, hid, hne, if_false]
      exact ih (fun x hx => hnonnull x (List.mem_cons_of_mem g hx))
        (fun x hx => hmiss x (List.mem_cons_of_mem g hx))

theorem scanGroups_hit (groupID : String) (groups : List Group)
    (hnonnull : ∀ g ∈ groups, g.ID ≠ none) (hpresent : ∃ g ∈ groups, g.ID = some groupID) :
    ∃ g, groups.find? (fun g => g.ID == some groupID) = some g ∧
      scanGroups groupID groups = Res.ok (some g) := by
  induction groups with
  | nil =>
    obtain ⟨g, hg, _⟩ := hpresent
    simp at hg
  | cons g rest ih =>
    have hg1 := hnonnull g (List.mem_cons_self g rest)
    cases hid : g.ID with
    | none => exact absurd hid hg1
    | some gid =>
      by_cases heq : gid = groupID
      · refine ⟨g, ?_, ?_⟩
        · simp [List.find?, hid, heq]
        · simp only [scanGroups, hid, heq, if_true]
      · have hrest : ∃ x ∈ rest, x.ID = some groupID := by
          obtain ⟨x, hx, hxid⟩ := hpresent
          rcases List.mem_cons.mp hx with rfl | hx
          · rw [hid] at hxid
            exact absurd (Option.some.inj hxid) heq
          · exact ⟨x, hx, hxid⟩
        obtain ⟨x, hfind, hscan⟩ :=
          ih (fun x hx => hnonnull x (List.mem_cons_of_mem g hx)) hrest
        refine ⟨x, ?_, ?_⟩
        · have hb : (gid == groupID) = false := by simpa using heq
          simp [List.find?, hid, hb, hfind]
        · simp only [scanGroups, hid, heq, if_false]
          exact hscan

theorem searchPages_done {σ : Type} (c : Client σ) (tp : Int) (fuel : Nat) (s : σ)
    (page : Int) (h : tp < page) :
    searchPages c tp fuel s page =
      some { server := s, requests := [], stdout := [], result := Res.ok () } := by
  have hn : ¬ page ≤ tp := not_le.mpr h
  cases fuel <;> simp [searchPages, hn]

theorem searchPages_run {σ : Type} (c : Client σ) (tp : Int) (htp : tp < maxInt) :
    ∀ (n fuel : Nat) (s : σ) (page : Int), n ≤ fuel → (tp + 1 - page).toNat = n →
      minInt ≤ page → followUpsSucceed c s (pagesBetween page tp) = true →
      searchPages c tp fuel s page =
        some { server := serverAfter c s (pagesBetween page tp),
               requests := (pagesBetween page tp).map (pageRequest c),
               stdout := (pagesBetween page tp).map
                 (fun p => "Searching page " ++ strconv.Itoa p),
               result := Res.ok () } := by
  intro n
  induction n with
  | zero =>
    intro fuel s page _ hn _ _
    have hlt : tp < page := by omega
    rw [pagesBetween_nil page tp hlt, searchPages_done c tp fuel s page hlt]
    rfl
  | succ n ih =>
    intro fuel s page hfuel hn hpage hfollow
    have hle : page ≤ tp := by omega
    obtain ⟨f, rfl⟩ : ∃ f, fuel = f + 1 := ⟨fuel - 1, by omega⟩
    rw [pagesBetween_cons page tp hle] at hfollow ⊢
    simp only [followUpsSucceed] at hfollow
    cases hurl : c.urlError (c.ApiUrl ++ "/groups?pageNumber=" ++ strconv.Itoa page) with
    | some e => simp [hurl] at hfollow
    | none =>
      simp only [hurl] at hfollow
      cases hreq : (c.doRequest s (pageRequest c page)).2 with
      | error e => simp [hreq] at hfollow
      | ok body =>
        simp only [hreq] at hfollow
        cases hdec : c.unmarshalGroupList body with
        | error e => simp [hdec] at hfollow
        | ok resp =>
          simp only [hdec] at hfollow
          have hmax : page + 1 ≤ maxInt := by
            unfold maxInt at htp ⊢
            omega
          have hmin : minInt ≤ page + 1 := by
            unfold minInt at hpage ⊢
            omega
          have hw : wrapInt (page + 1) = page + 1 := wrapInt_of_range _ hmin hmax
          have ih' := ih f (c.doRequest s (pageRequest c page)).1 (page + 1) (by omega)
            (by omega) hmin hfollow
          have hnr : NewRequest c "GET"
              (c.ApiUrl ++ "/groups?pageNumber=" ++ strconv.Itoa page) none =
              Except.ok (pageRequest c page) := by
            simp [NewRequest, hurl, pageRequest]
          simp only [searchPages, hle, if_true, hnr, hreq, hdec, hw, ih']
          simp [serverAfter]

/-- C4. `GetGroup`, first-page hit. When the first page is fetched and decoded, its
pagination numbers are valid, every entry of its group list has a non-null identifier
and some entry has the requested identifier, then `GetGroup` returns the first entry of
the list with that identifier, without error, whatever the fuel, and the only request
it issued is `GET {ApiUrl}/groups` without query and body (nothing is printed
either). -/
theorem GetGroup_first_page_hit {σ : Type} (c : Client σ) (fuel : Nat) (s : σ)
    (groupID body : String) (resp : GroupListResponse) (pn tp : Int)
    (hurl : c.urlError (c.ApiUrl ++ "/groups") = none)
    (hfetch : (c.doRequest s
      { Method := "GET", URL := c.ApiUrl ++ "/groups", Body := none }).2 = Except.ok body)
    (hdec : c.unmarshalGroupList body = Except.ok resp)
    (hpag : c.GetPaginationNumbers resp.Pagination = Except.ok (pn, tp))
    (hnonnull : ∀ g ∈ resp.GroupsResponse.Groups, g.ID ≠ none)
    (hpresent : ∃ g ∈ resp.GroupsResponse.Groups, g.ID = some groupID) :
    ∃ g, resp.GroupsResponse.Groups.find? (fun g => g.ID == some groupID) = some g ∧
      GetGroup c fuel s groupID =
        some { server := (c.doRequest s
                 { Method := "GET", URL := c.ApiUrl ++ "/groups", Body := none }).1,
               requests := [{ Method := "GET", URL := c.ApiUrl ++ "/groups", Body := none }],
               stdout := [],
               result := Res.ok g } := by
  obtain ⟨g, hfind, hscan⟩ := scanGroups_hit groupID resp.GroupsResponse.Groups hnonnull hpresent
  refine ⟨g, hfind, ?_⟩
  have hnr : NewRequest c "GET" (c.ApiUrl ++ "/groups") none =
      Except.ok { Method := "GET", URL := c.ApiUrl ++ "/groups", Body := none } := by
    simp [NewRequest, hurl]
  simp only [GetGroup, hnr, hfetch, hdec, hpag, hscan]

theorem GetGroup_first_page_hit_witness :
    (GetGroup (pagedClient [sampleGroup (some "g-1") "Admins", sampleGroup (some "g-2") "Sales",
        sampleGroup (some "g-2") "Shadow"] (1, 2)) 0 0 "g-2").map
      (fun e => (e.requests.map (fun r => (r.Method, r.URL)), e.result)) =
    some ([("GET", "https://tableau.example.com/api/3.19/sites/s1/groups")],
          Res.ok (sampleGroup (some "g-2") "Sales")) := by
  obtain ⟨g, hfind, hget⟩ := GetGroup_first_page_hit
    (pagedClient [sampleGroup (some "g-1") "Admins", sampleGroup (some "g-2") "Sales",
      sampleGroup (some "g-2") "Shadow"] (1, 2)) 0 0 "g-2" "first"
    { GroupsResponse := { Groups := [sampleGroup (some "g-1") "Admins",
        sampleGroup (some "g-2") "Sales", sampleGroup (some "g-2") "Shadow"] },
      Pagination := { PageNumber := "1", PageSize := "2", TotalAvailable := "3" } }
    1 2 rfl rfl rfl rfl (by decide) (by decide)
  rw [hget]
  have hg : g = sampleGroup (some "g-2") "Sales" := by
    have h2 : (some g : Option Group) = some (sampleGroup (some "g-2") "Sales") := by
      rw [← hfind]
      decide
    exact Option.some.inj h2
  rw [hg]
  rfl

theorem wrapInt_le_maxInt (i : Int) : wrapInt i ≤ maxInt := by
  unfold wrapInt maxInt
  omega

theorem GetGroup_still_running {σ : Type} (c : Client σ) (fuel : Nat) (s : σ)
    (groupID body : String) (resp : GroupListResponse) (pn tp : Int)
    (hurl : c.urlError (c.ApiUrl ++ "/groups") = none)
    (hfetch : (c.doRequest s (firstRequest c)).2 = Except.ok body)
    (hdec : c.unmarshalGroupList body = Except.ok resp)
    (hpag : c.GetPaginationNumbers resp.Pagination = Except.ok (pn, tp))
    (hnonnull : ∀ g ∈ resp.GroupsResponse.Groups, g.ID ≠ none)
    (hmiss : ∀ g ∈ resp.GroupsResponse.Groups, g.ID ≠ some groupID)
    (hrun : searchPages c tp fuel (c.doRequest s (firstRequest c)).1 (wrapInt (pn + 1)) = none) :
    GetGroup c fuel s groupID = none := by
  have hscan := scanGroups_miss groupID resp.GroupsResponse.Groups hnonnull hmiss
  have hnr : NewRequest c "GET" (c.ApiUrl ++ "/groups") none = Except.ok (firstRequest c) := by
    simp [NewRequest, hurl, firstRequest]
  simp only [GetGroup, hnr, hfetch, hdec, hpag, hscan, hrun]

theorem pagedClient_answers (firstPage : List Group) (numbers : Int × Int) (s : Nat)
    (url : String) :
    ∃ body resp,
      (pagedClient firstPage numbers).doRequest s { Method := "GET", URL := url, Body := none } =
        (s + 1, Except.ok body) ∧
      (pagedClient firstPage numbers).unmarshalGroupList body = Except.ok resp := by
  by_cases hfirst : url = "https://tableau.example.com/api/3.19/sites/s1/groups"
  · exact ⟨"first", _, by simp [pagedClient, hfirst], rfl⟩
  · exact ⟨"later", _, by simp [pagedClient, hfirst], rfl⟩

theorem searchPages_pagedClient_maxInt (firstPage : List Group) (numbers : Int × Int) :
    ∀ (fuel : Nat) (s : Nat) (page : Int), page ≤ maxInt →
      searchPages (pagedClient firstPage numbers) maxInt fuel s page = none := by
  intro fuel
  induction fuel with
  | zero =>
    intro s page hpage
    simp [searchPages, hpage]
  | succ f ih =>
    intro s page hpage
    obtain ⟨body, resp, hreq, hdec⟩ := pagedClient_answers firstPage numbers s
      ((pagedClient firstPage numbers).ApiUrl ++ "/groups?pageNumber=" ++ strconv.Itoa page)
    have hnr : NewRequest (pagedClient firstPage numbers) "GET"
        ((pagedClient firstPage numbers).ApiUrl ++ "/groups?pageNumber=" ++ strconv.Itoa page)
        none =
        Except.ok { Method := "GET",
                    URL := (pagedClient firstPage numbers).ApiUrl ++ "/groups?pageNumber=" ++
                      strconv.Itoa page,
                    Body := none } := rfl
    simp only [searchPages, hpage, if_true, hnr, hreq, hdec,
      ih (s + 1) (wrapInt (page + 1)) (wrapInt_le_maxInt (page + 1))]

/-- C5, as the claim states it, fails in three places. (a) A first page whose only entry
has a null identifier matches no requested identifier, yet `GetGroup` panics on the
nil dereference instead of returning the not-found error. (b) With the pagination result
`(maxInt, minInt)` the total page count is not above the page number, yet `page`
wraps around to `minInt` and one follow-up request, for page `-9223372036854775808`,
is issued. (c) With the total page count `maxInt` the test `page <= totalPageCount`
never fails: on a server that answers every page, `GetGroup` is still running after any
number of rounds and returns nothing. -/
theorem GetGroup_first_page_miss_counterexample :
    ((∀ g ∈ [sampleGroup none "Orphans"], g.ID ≠ some "g-3") ∧
      (GetGroup (pagedClient [sampleGroup none "Orphans"] (1, 1)) 5 0 "g-3").map
        (fun e => e.result) =
        some (Res.panicked "invalid memory address or nil pointer dereference")) ∧
    ((∀ g ∈ [sampleGroup (some "g-1") "Admins"], g.ID ≠ some "g-3") ∧
      minInt ≤ maxInt ∧
      (GetGroup (pagedClient [sampleGroup (some "g-1") "Admins"] (maxInt, minInt)) 5 0
          "g-3").map (fun e => (e.requests.map (fun r => r.URL), e.result)) =
        some (["https://tableau.example.com/api/3.19/sites/s1/groups",
               "https://tableau.example.com/api/3.19/sites/s1/groups?pageNumber=-9223372036854775808"],
              Res.error "Did not find group ID g-3")) ∧
    (∀ fuel, (GetGroup (pagedClient [sampleGroup (some "g-1") "Admins"] (1, maxInt)) fuel 0
        "g-3").isNone = true) := by
  refine ⟨⟨by decide, by decide⟩, ⟨by decide, by decide, by decide⟩, ?_⟩
  intro fuel
  have hrun := searchPages_pagedClient_maxInt [sampleGroup (some "g-1") "Admins"] (1, maxInt)
    fuel 1 (wrapInt (1 + 1)) (wrapInt_le_maxInt (1 + 1))
  rw [GetGroup_still_running (pagedClient [sampleGroup (some "g-1") "Admins"] (1, maxInt)) fuel 0
    "g-3" "first"
    { GroupsResponse := { Groups := [sampleGroup (some "g-1") "Admins"] },
      Pagination := { PageNumber := "1", PageSize := "2", TotalAvailable := "3" } }
    1 maxInt rfl rfl rfl rfl (by decide) (by decide) hrun]
  rfl

/-- C5, amended. When the first page is fetched and decoded, every entry of its group
list has a non-null identifier and none has the requested one, the pagination result
`(pn, tp)` has `pn` in the range of `int` and both numbers below the largest `int`, and
all follow-up requests can be built, are answered and decode, then with enough fuel
(`tp - pn` rounds) `GetGroup` returns the error `Did not find group ID <id>` and no
group, after the first request followed by exactly the requests for the pages
`pn + 1, ..., tp` in increasing order, whatever the follow-up pages contain. The list of
these pages holds exactly the integers from `pn + 1` to `tp`, is strictly increasing,
and is empty when `tp ≤ pn`. -/
theorem GetGroup_first_page_miss {σ : Type} (c : Client σ) (s : σ)
    (groupID body : String) (resp : GroupListResponse) (pn tp : Int)
    (hurl : c.urlError (c.ApiUrl ++ "/groups") = none)
    (hfetch : (c.doRequest s (firstRequest c)).2 = Except.ok body)
    (hdec : c.unmarshalGroupList body = Except.ok resp)
    (hpag : c.GetPaginationNumbers resp.Pagination = Except.ok (pn, tp))
    (hnonnull : ∀ g ∈ resp.GroupsResponse.Groups, g.ID ≠ none)
    (hmiss : ∀ g ∈ resp.GroupsResponse.Groups, g.ID ≠ some groupID)
    (hpnmin : minInt ≤ pn) (hpnmax : pn < maxInt) (htp : tp < maxInt)
    (hfollow : followUpsSucceed c (c.doRequest s (firstRequest c)).1
      (pagesBetween (pn + 1) tp) = true) :
    (∀ fuel, (tp - pn).toNat ≤ fuel →
      GetGroup c fuel s groupID =
        some { server := serverAfter c (c.doRequest s (firstRequest c)).1
                 (pagesBetween (pn + 1) tp),
               requests := { Method := "GET", URL := c.ApiUrl ++ "/groups", Body := none } ::
                 (pagesBetween (pn + 1) tp).map (fun page =>
                   { Method := "GET",
                     URL := c.ApiUrl ++ "/groups?pageNumber=" ++ strconv.Itoa page,
                     Body := none }),
               stdout := (pagesBetween (pn + 1) tp).map
                 (fun page => "Searching page " ++ strconv.Itoa page),
               result := Res.error ("Did not find group ID " ++ groupID) }) ∧
    (∀ page, page ∈ pagesBetween (pn + 1) tp ↔ pn + 1 ≤ page ∧ page ≤ tp) ∧
    (pagesBetween (pn + 1) tp).Pairwise (fun a b => a < b) ∧
    (tp ≤ pn → pagesBetween (pn + 1) tp = []) := by
  refine ⟨?_, fun page => mem_pagesBetween (pn + 1) tp page, pagesFrom_increasing _ _,
    fun h => pagesBetween_nil (pn + 1) tp (by omega)⟩
  intro fuel hfuel
  have hscan := scanGroups_miss groupID resp.GroupsResponse.Groups hnonnull hmiss
  have hnr : NewRequest c "GET" (c.ApiUrl ++ "/groups") none = Except.ok (firstRequest c) := by
    simp [NewRequest, hurl, firstRequest]
  have hmax : pn + 1 ≤ maxInt := by
    unfold maxInt at hpnmax ⊢
    omega
  have hmin : minInt ≤ pn + 1 := by
    unfold minInt at hpnmin ⊢
    omega
  have hw : wrapInt (pn + 1) = pn + 1 := wrapInt_of_range _ hmin hmax
  have hrun := searchPages_run c tp htp (tp + 1 - (pn + 1)).toNat fuel
    (c.doRequest s (firstRequest c)).1 (pn + 1) (by omega) rfl hmin hfollow
  simp only [GetGroup, hnr, hfetch, hdec, hpag, hscan, hw, hrun]
  rfl

theorem GetGroup_first_page_miss_witness :
    (GetGroup (pagedClient [sampleGroup (some "g-1") "Admins", sampleGroup (some "g-2") "Sales"]
        (1, 2)) 1 0 "g-3").map
      (fun e => (e.requests.map (fun r => (r.Method, r.URL)), e.result)) =
    some ([("GET", "https://tableau.example.com/api/3.19/sites/s1/groups"),
           ("GET", "https://tableau.example.com/api/3.19/sites/s1/groups?pageNumber=2")],
          Res.error "Did not find group ID g-3") ∧
    ((pagedClient [] (1, 2)).unmarshalGroupList "later").map
      (fun r => r.GroupsResponse.Groups.map (fun g => g.ID)) = Except.ok [some "g-3"] := by
  have h := (GetGroup_first_page_miss
    (pagedClient [sampleGroup (some "g-1") "Admins", sampleGroup (some "g-2") "Sales"] (1, 2))
    0 "g-3" "first"
    { GroupsResponse := { Groups := [sampleGroup (some "g-1") "Admins",
        sampleGroup (some "g-2") "Sales"] },
      Pagination := { PageNumber := "1", PageSize := "2", TotalAvailable := "3" } }
    1 2 rfl rfl rfl rfl (by decide) (by decide) (by decide) (by decide) (by decide)
    (by decide)).1 1 (by decide)
  rw [h]
  exact ⟨rfl, rfl⟩

theorem CreateGroup_request {σ : Type} (c : Client σ) (s : σ) (name : String)
    (minimumSiteRole : Option String) (hurl : c.urlError (c.ApiUrl ++ "/groups") = none) :
    (CreateGroup c s name minimumSiteRole).requests =
      [{ Method := "POST", URL := c.ApiUrl ++ "/groups",
         Body := some (json.Value.obj [("group", json.Value.obj
           [("name", json.Value.str name),
            ("minimumSiteRole", json.ofStringPtr minimumSiteRole)])]) }] := by
  simp only [CreateGroup, NewGroupRequest.marshal, NewGroup.marshal, NewRequest, hurl,
    sendForGroup]
  split <;> [rfl; (split <;> rfl)]

theorem UpdateGroup_request {σ : Type} (c : Client σ) (s : σ)
    (groupID name minimumSiteRole : String)
    (hurl : c.urlError (c.ApiUrl ++ "/groups/" ++ groupID) = none) :
    (UpdateGroup c s groupID name minimumSiteRole).requests =
      [{ Method := "PUT", URL := c.ApiUrl ++ "/groups/" ++ groupID,
         Body := some (json.Value.obj
           [("name", json.Value.str name),
            ("minimumSiteRole", json.Value.str minimumSiteRole)]) }] := by
  simp only [UpdateGroup, NewGroup.marshal, NewRequest, hurl, sendForGroup, json.ofStringPtr]
  split <;> [rfl; (split <;> rfl)]

/-- C8. The body that `UpdateGroup` sends is not wrapped. For every identifier, name and
minimum site role, when the request can be built, `UpdateGroup` issues one `PUT` whose
body is the JSON object with the two top-level fields `name` and `minimumSiteRole`
(a string); it has no field `group`. `CreateGroup` on the same client sends an object
whose single top-level field is `group`. -/
theorem UpdateGroup_body_not_wrapped {σ : Type} (c : Client σ) (s : σ)
    (groupID name minimumSiteRole : String)
    (hurl : c.urlError (c.ApiUrl ++ "/groups/" ++ groupID) = none)
    (hurl2 : c.urlError (c.ApiUrl ++ "/groups") = none) :
    (UpdateGroup c s groupID name minimumSiteRole).requests.map (fun r => r.Body) =
      [some (json.Value.obj [("name", json.Value.str name),
                              ("minimumSiteRole", json.Value.str minimumSiteRole)])] ∧
    (UpdateGroup c s groupID name minimumSiteRole).requests.map
      (fun r => r.Body.map json.Value.fieldNames) = [some ["name", "minimumSiteRole"]] ∧
    (UpdateGroup c s groupID name minimumSiteRole).requests.map
      (fun r => r.Body.bind (json.Value.field "group")) = [none] ∧
    (CreateGroup c s name (some minimumSiteRole)).requests.map
      (fun r => r.Body.map json.Value.fieldNames) = [some ["group"]] ∧
    (CreateGroup c s name (some minimumSiteRole)).requests.map
      (fun r => r.Body.bind (json.Value.field "group")) =
      [some (json.Value.obj [("name", json.Value.str name),
                              ("minimumSiteRole", json.Value.str minimumSiteRole)])] := by
  rw [UpdateGroup_request c s groupID name minimumSiteRole hurl,
    CreateGroup_request c s name (some minimumSiteRole) hurl2]
  exact ⟨rfl, rfl, rfl, rfl, rfl⟩

theorem UpdateGroup_body_not_wrapped_witness :
    (UpdateGroup (pagedClient [] (1, 1)) 0 "g-9" "Analysts" "Viewer").requests.map
      (fun r => r.Body.map json.Value.fieldNames) = [some ["name", "minimumSiteRole"]] ∧
    (CreateGroup (pagedClient [] (1, 1)) 0 "Analysts" (some "Viewer")).requests.map
      (fun r => r.Body.map json.Value.fieldNames) = [some ["group"]] :=
  have h := UpdateGroup_body_not_wrapped (pagedClient [] (1, 1)) 0 "g-9" "Analysts" "Viewer"
    rfl rfl
  ⟨h.2.1, h.2.2.2.1⟩

end tableau
